import Mathlib

/-!
Verification of the novel-generator backend core: the agent orchestration
pipeline (`agent_novel_generator.py`), request validation (`models.py`) and
the multi-provider routing layer (`llm_providers.py`).

Modelling conventions:
* Remote LLM calls are opaque: each call's outcome is an input of the model,
  given as `Except String String` (error message or generated text) for
  providers, or as already-parsed structured data for the agents (the
  `json.loads` step is Python's standard library, external to the repo; a
  parse outcome is supplied as `Except Unit ReviewData` / `OutlineData`).
* Python floats are modelled as `Rat` (exact arithmetic), Python ints as
  `Int` (or `Nat` where the source can only produce non-negative values).
* Python `json.dumps`/`parse_raw` round-trips between agents and the
  orchestrator are modelled as identity: the structured value itself is
  passed along.
* Exceptions are modelled with `Except String`; a raised `ZeroDivisionError`
  or `IndexError` is an `.error`.
* Side effects that cannot alter control flow (logging, the task-status
  sink, whose failures are caught in `_update_task_status`) are not
  modelled; the collaboration log is not modelled as no claim observes it.
-/

/- ### Python string primitives (`str.split`, `str.strip`, `str.count`) -/

/-- Python `str` whitespace for `split()`/`strip()`: space, \t, \n, \r, \v,
\f.  (Python additionally treats some non-ASCII Unicode whitespace as
separators; the model restricts to the ASCII ones.) -/
def pyIsSpace (c : Char) : Bool :=
  c == ' ' || c == '\t' || c == '\n' || c == '\r' ||
  c == Char.ofNat 11 || c == Char.ofNat 12

/-- Worker for `pySplit`; `cur` is the reversed current token. -/
def pySplitGo : List Char → List Char → List (List Char)
  | [], [] => []
  | [], cur => [cur.reverse]
  | c :: rest, cur =>
    if pyIsSpace c then
      match cur with
      | [] => pySplitGo rest []
      | _ => cur.reverse :: pySplitGo rest []
    else pySplitGo rest (c :: cur)

/-- Python `s.split()` with no argument: split on runs of whitespace,
dropping empty tokens. -/
def pySplit (s : List Char) : List (List Char) :=
  pySplitGo s []

/-- Python `len(s.split())`, the whitespace-token count used by the Writer
and Editor for `word_count`. -/
def pyWordCount (s : String) : Nat :=
  (pySplit s.data).length

/-- Python `s.split(sep)` for a single-character separator (keeps empties). -/
def pySplitOn (sep : Char) : List Char → List (List Char)
  | [] => [[]]
  | c :: rest =>
    if c == sep then [] :: pySplitOn sep rest
    else
      match pySplitOn sep rest with
      | [] => [[c]]
      | p :: ps => (c :: p) :: ps

/-- Python `s.strip()`. -/
def pyStrip (s : List Char) : List Char :=
  ((s.dropWhile pyIsSpace).reverse.dropWhile pyIsSpace).reverse

/-- Python `s.count(ch)` for one character. -/
def pyCountChar (c : Char) (s : List Char) : Nat :=
  (s.filter (fun x => x == c)).length

/-- The non-empty stripped lines of a text:
`[p.strip() for p in content.split(chr(10)) if p.strip()]`. -/
def pyParagraphs (s : List Char) : List (List Char) :=
  ((pySplitOn '\n' s).map pyStrip).filter (fun p => !p.isEmpty)

/- ### Provider routing layer — `llm_providers.py`, `MultiModelManager`

A manager is its registered-provider dictionary: an association list from
provider name to the outcome its `generate` coroutine would produce
(`.ok text` or `.error message`, the latter standing for a raised
exception rendered by `str(e)`).  Keys are unique (Python dict). -/

/-- The outcome of one provider's `generate` call. -/
abbrev ProviderOutcome := Except String String

/-- Python `dict.get(name)` on the registered-provider table. -/
def dictGet {α : Type} : List (String × α) → String → Option α
  | [], _ => none
  | (k, v) :: rest, n => if k = n then some v else dictGet rest n

/-- Loop body of `MultiModelManager.generate_with_fallback`: try each name
in order, skip unregistered names, return the first success, remember only
the most recent failure (`last_error`). -/
def fallbackGo (m : List (String × ProviderOutcome)) (last : Option String) :
    List String → Except String String
  | [] =>
    .error ("All providers failed. Last error: " ++
      (match last with | none => "None" | some e => e))
  | n :: rest =>
    match dictGet m n with
    | none => fallbackGo m last rest
    | some (.ok r) => .ok r
    | some (.error e) => fallbackGo m (some e) rest

/-- Model of `MultiModelManager.generate_with_fallback(prompt, providers)`.  A falsy
`providers` argument (None or the empty list) defaults to all registered
names in registration order. -/
def generate_with_fallback (m : List (String × ProviderOutcome))
    (providers : List String) : Except String String :=
  let ps := if providers.isEmpty then m.map Prod.fst else providers
  fallbackGo m none ps

/-- Rendering of one gathered result in `generate_parallel`:
exceptions become the string `"Error: " ++ str(e)`. -/
def renderOutcome : ProviderOutcome → String
  | .ok r => r
  | .error e => "Error: " ++ e

/-- Model of `MultiModelManager.generate_parallel(prompt, providers)`.  Tasks are
launched only for registered names; `asyncio.gather` returns their results
in submission order; the result dict is built by `zip(providers, results)`,
i.e. the full requested-name list is zipped positionally against the
launched-task results.  The returned association list records the dict
insertions in order. -/
def generate_parallel (m : List (String × ProviderOutcome))
    (providers : List String) : List (String × String) :=
  let ps := if providers.isEmpty then (m.map Prod.fst).take 3 else providers
  let results := ps.filterMap (fun n => dictGet m n)
  (ps.zip results).map (fun p => (p.fst, renderOutcome p.snd))

/- Spec-side characterisation of the fallback loop (these two definitions
follow the spec's words, to be compared with `generate_with_fallback`). -/

/-- Spec reading: the result of the first provider in the list that is
registered and whose call succeeds. -/
def specFirstSuccess (m : List (String × ProviderOutcome)) :
    List String → Option String
  | [] => none
  | n :: rest =>
    match dictGet m n with
    | some (.ok r) => some r
    | _ => specFirstSuccess m rest

/-- Spec reading: the error message of the last registered provider in the
list whose call fails (accumulator starts at `none`). -/
def specLastFailure (m : List (String × ProviderOutcome)) :
    Option String → List String → Option String
  | acc, [] => acc
  | acc, n :: rest =>
    match dictGet m n with
    | some (.error e) => specLastFailure m (some e) rest
    | _ => specLastFailure m acc rest

/- ### Data model — `models.py` -/

/-- Model of `models.NovelRequest` after successful pydantic validation.  `genre` and
`style` are kept as their enum string values; fields not read by the core
pipeline (`special_requirements`, `reference_works`) are omitted. -/
structure NovelRequest where
  theme : String
  genre : Option String
  style : String
  word_count : Int
  chapter_count : Int
  target_audience : String
deriving Repr, DecidableEq

/-- The raw field values handed to `NovelRequest(...)` before validation
(defaults of the pydantic model filled in for absent fields). -/
structure NovelRequestInput where
  theme : String
  genre : Option String := none
  style : String := "知乎风格"
  word_count : Int := 30000
  chapter_count : Int := 12
  target_audience : String := "知乎用户"
deriving Repr, DecidableEq

/-- The `NovelGenre` enum values. -/
def genreValues : List String :=
  ["urban_romance", "mystery", "scifi", "workplace", "fantasy"]

/-- The `WritingStyle` enum values. -/
def styleValues : List String :=
  ["知乎风格", "轻松幽默", "文艺细腻", "紧张刺激"]

/-- Pydantic-v1 validation of `NovelRequest`.  Fields are validated in
declaration order (`theme`, `genre`, `style`, `word_count`,
`chapter_count`, `target_audience`); per field, the `Field` constraints run
before the custom `@validator`.  Crucially, when `validate_word_count`
runs, `values` holds only the already-validated fields, so
`values.get('chapter_count', 12)` always yields the default `12` —
`chapter_count` is declared after `word_count` and is absent from `values`. -/
def validateNovelRequest (inp : NovelRequestInput) : Except String NovelRequest := do
  if inp.theme.length < 5 then
    throw "theme: ensure this value has at least 5 characters"
  if inp.theme.length > 500 then
    throw "theme: ensure this value has at most 500 characters"
  let theme := String.mk (pyStrip inp.theme.data)
  if theme = "" then throw "主题不能为空"
  match inp.genre with
  | some g =>
    if !(genreValues.contains g) then
      throw "genre: value is not a valid enumeration member"
  | none => pure ()
  if !(styleValues.contains inp.style) then
    throw "style: value is not a valid enumeration member"
  if inp.word_count < 5000 then
    throw "word_count: ensure this value is greater than or equal to 5000"
  if inp.word_count > 100000 then
    throw "word_count: ensure this value is less than or equal to 100000"
  let valuesChapterCount : Int := 12
  let min_per_chapter := inp.word_count.fdiv valuesChapterCount
  if min_per_chapter < 200 then throw "每章字数不能少于200字"
  if inp.chapter_count < 3 then
    throw "chapter_count: ensure this value is greater than or equal to 3"
  if inp.chapter_count > 30 then
    throw "chapter_count: ensure this value is less than or equal to 30"
  pure { theme := theme, genre := inp.genre, style := inp.style,
         word_count := inp.word_count, chapter_count := inp.chapter_count,
         target_audience := inp.target_audience }

/-- Model of `models.ChapterOutline` (agent-review annotations omitted — never read). -/
structure ChapterOutline where
  chapter_num : Nat
  title : String
  summary : String
  key_events : List String
  characters_involved : List String
  mood : String
  target_word_count : Int
deriving Repr, DecidableEq

/-- Model of `models.NovelOutline`.  The `characters`, `world_setting` and
`plot_structure` dictionaries are modelled by their key lists — the
pipeline only tests key membership and dictionary size on them. -/
structure NovelOutline where
  title : String
  subtitle : Option String
  author_note : String
  one_line_pitch : String
  genre : String
  theme : String
  tone : String
  characters : List String
  world_setting : List String
  plot_structure : List String
  plot_points : List String
  chapter_outlines : List ChapterOutline
  themes_to_explore : List String
  key_symbols : List String
  target_readers : String
deriving Repr, DecidableEq

/-- Model of `models.Chapter` (optional annotation fields that no pipeline code
reads are omitted). -/
structure Chapter where
  chapter_num : Nat
  title : String
  content : String
  word_count : Nat
deriving Repr, DecidableEq

/-- The fields of a parsed Reviewer reply that `_review_chapter` /
`_calculate_quality_score` actually read: `scores` (a dict of per-axis
numbers, kept in insertion order), `overall_score`, `suggestions`. -/
structure ReviewData where
  overall_score : Option Rat
  scores : Option (List (String × Rat))
  suggestions : Option (List String)
deriving Repr, DecidableEq

/-- The payload of an `AgentResponse.content` field: in Python it is a JSON
string; the model keeps the structured value (dumps/parse round-trips are
identities). -/
inductive ARContent where
  | text (s : String)
  | chapterContent (c : Chapter)
  | outlineContent (o : NovelOutline)
  | reviewContent (rd : ReviewData)
deriving Repr, DecidableEq

/-- Model of `models.AgentResponse` (metadata dict omitted — never read back). -/
structure AgentResponse where
  agent_role : String
  content : ARContent
  quality_score : Option Rat
  suggestions : List String
  next_action : Option String
deriving Repr, DecidableEq

/- ### Reviewer agent — `ReviewerAgent` -/

/-- Sum of a list of rationals. -/
def ratSum : List Rat → Rat
  | [] => 0
  | x :: xs => x + ratSum xs

/-- Model of `ReviewerAgent._calculate_quality_score`: with a `scores` dict present,
`sum(scores.values()) / (len(scores) * 5)` guarded by `max_score > 0`;
otherwise `overall_score / 5.0` when present; otherwise the default `0.6`. -/
def calculate_quality_score (rd : ReviewData) : Rat :=
  match rd.scores with
  | some scores =>
    let total := ratSum (scores.map Prod.snd)
    let maxScore : Rat := (scores.length : Rat) * 5
    if maxScore > 0 then total / maxScore else 0
  | none =>
    match rd.overall_score with
    | some s => s / 5
    | none => 3 / 5

/-- Core of `ReviewerAgent._review_chapter` after the LLM call returned
`reply`: `json.loads` either yields structured review data (`.ok`) or
raises `JSONDecodeError` (`.error ()`), in which case the fixed fallback
response is returned instead of propagating the error. -/
def review_chapter_core (reply : String) (parsed : Except Unit ReviewData) :
    AgentResponse :=
  match parsed with
  | .ok rd =>
    let q := calculate_quality_score rd
    { agent_role := "reviewer", content := .reviewContent rd,
      quality_score := some q,
      suggestions := rd.suggestions.getD [],
      next_action := some (if q ≥ 7 / 10 then "accept" else "revise") }
  | .error _ =>
    { agent_role := "reviewer", content := .text reply,
      quality_score := some (3 / 5),
      suggestions := ["请重新检查内容格式"],
      next_action := some "revise" }

/-- Model of `ReviewerAgent._review_chapter`: the LLM call itself may fail (its
exceptions propagate); a successful call carries the reply text and its
parse outcome. -/
def review_chapter (llm : Except String (String × Except Unit ReviewData)) :
    Except String AgentResponse :=
  match llm with
  | .error e => .error e
  | .ok (reply, parsed) => .ok (review_chapter_core reply parsed)

/- ### Writer agent — `WriterAgent` -/

/-- Python list indexing `l[i]` including negative indices; `none` is an
`IndexError`. -/
def pyGet {α : Type} (l : List α) (i : Int) : Option α :=
  if 0 ≤ i then l.get? i.toNat
  else if (-i).toNat ≤ l.length then l.get? (l.length - (-i).toNat) else none

/-- The dialogue-marker count of `WriterAgent._evaluate_content_quality`:
occurrences of the straight double quote and the two curly double quotes
(U+201C, U+201D). -/
def dialogueMarkerCount (s : String) : Nat :=
  pyCountChar '"' s.data + pyCountChar (Char.ofNat 0x201C) s.data +
    pyCountChar (Char.ofNat 0x201D) s.data

/-- Model of `WriterAgent._evaluate_content_quality`: the mean of four binary
criteria — word-count deviation within 20% of target, ≥6 dialogue markers,
≥5 paragraphs, raw length >500 characters.  `abs(word_count - target) /
target` raises `ZeroDivisionError` when the target is 0. -/
def evaluate_content_quality (chapter : Chapter) (co : ChapterOutline) :
    Except String Rat :=
  if co.target_word_count = 0 then .error "ZeroDivisionError: division by zero"
  else
    let word_diff : Rat :=
      ((|(chapter.word_count : Int) - co.target_word_count| : Int) : Rat) /
        ((co.target_word_count : Int) : Rat)
    let s1 : Rat := if word_diff ≤ 1 / 5 then 1 else 0
    let s2 : Rat := if 6 ≤ dialogueMarkerCount chapter.content then 1 else 0
    let s3 : Rat := if 5 ≤ (pyParagraphs chapter.content.data).length then 1 else 0
    let s4 : Rat := if 500 < chapter.content.length then 1 else 0
    .ok ((s1 + s2 + s3 + s4) / 4)

/-- Model of `WriterAgent.process` with the LLM's generated text supplied as
`content`: range-checks the chapter number, builds the `Chapter` with
`word_count = len(content.split())`, and scores it.  (Prompt construction
only feeds the external LLM and is elided.) -/
def writer_process (outline : NovelOutline) (chapter_num : Nat)
    (content : String) : Except String (Chapter × Rat) :=
  if chapter_num > outline.chapter_outlines.length then
    .error ("章节编号超出范围: " ++ toString chapter_num)
  else
    match pyGet outline.chapter_outlines ((chapter_num : Int) - 1) with
    | none => .error "IndexError: list index out of range"
    | some co =>
      let chapter : Chapter :=
        { chapter_num := chapter_num, title := co.title, content := content,
          word_count := pyWordCount content }
      match evaluate_content_quality chapter co with
      | .error e => .error e
      | .ok q => .ok (chapter, q)

/- ### Editor agent — `EditorAgent` -/

/-- Model of `EditorAgent._evaluate_editing_quality`: mean of three binary criteria —
word-count drift ≤15%, paragraph count non-decreasing, edited length ≥90%
of the original length.  Raises `ZeroDivisionError` when the original
chapter's `word_count` is 0. -/
def evaluate_editing_quality (edited original : Chapter) : Except String Rat :=
  if original.word_count = 0 then .error "ZeroDivisionError: division by zero"
  else
    let drift : Rat :=
      ((|(edited.word_count : Int) - (original.word_count : Int)| : Int) : Rat) /
        ((original.word_count : Nat) : Rat)
    let s1 : Rat := if drift ≤ 3 / 20 then 1 else 0
    let s2 : Rat :=
      if (pyParagraphs original.content.data).length ≤
          (pyParagraphs edited.content.data).length then 1 else 0
    let s3 : Rat :=
      if ((original.content.length : Rat)) * (9 / 10) ≤
          (edited.content.length : Rat) then 1 else 0
    .ok ((s1 + s2 + s3) / 3)

/-- Model of `EditorAgent.process` with the LLM's edited text supplied: rebuilds the
chapter (same number and title, new content, recomputed token count) and
scores the edit. -/
def editor_process (chapter : Chapter) (edited_content : String) :
    Except String (Chapter × Rat) :=
  let edited : Chapter :=
    { chapter_num := chapter.chapter_num, title := chapter.title,
      content := edited_content, word_count := pyWordCount edited_content }
  match evaluate_editing_quality edited chapter with
  | .error e => .error e
  | .ok q => .ok (edited, q)

/- ### Per-chapter Writer/Editor loop —
`AgentNovelGenerator._create_chapter_with_collaboration` -/

deriving instance DecidableEq for Except

/-- Instrumented outcome of the per-chapter loop: the returned chapter (or
the propagated exception) together with how many Writer and Editor calls
were issued. -/
structure LoopResult where
  outcome : Except String Chapter
  writerCalls : Nat
  editorCalls : Nat
deriving Repr, DecidableEq

/-- One unrolling of `for iteration in range(max_iterations)`.  `remaining`
counts iterations left (`remaining + iteration = maxIter` throughout);
`cur` is the Python local `chapter` (unassigned before the first
iteration — falling out of an empty loop raises `UnboundLocalError`).
Each iteration calls the Writer afresh; on `quality_score ≥ threshold` the
loop breaks with the Writer's chapter; otherwise, when further iterations
remain, the Editor rewrites the draft (its output only persists if the
loop then ends, since the next iteration's Writer call overwrites
`chapter`). `wContent`/`eContent` give the LLM text per iteration. -/
def chapterLoopGo (outline : NovelOutline) (chapter_num : Nat)
    (wContent eContent : Nat → String) (maxIter : Nat) (threshold : Rat) :
    Nat → Nat → Option Chapter → Nat → Nat → LoopResult
  | 0, _, cur, wc, ec =>
    match cur with
    | some c => ⟨.ok c, wc, ec⟩
    | none => ⟨.error "UnboundLocalError: chapter", wc, ec⟩
  | r + 1, iteration, _, wc, ec =>
    match writer_process outline chapter_num (wContent iteration) with
    | .error e => ⟨.error e, wc + 1, ec⟩
    | .ok (chapter, q) =>
      if q ≥ threshold then ⟨.ok chapter, wc + 1, ec⟩
      else if iteration < maxIter - 1 then
        match editor_process chapter (eContent iteration) with
        | .error e => ⟨.error e, wc + 1, ec + 1⟩
        | .ok (edited, _) =>
          chapterLoopGo outline chapter_num wContent eContent maxIter threshold
            r (iteration + 1) (some edited) (wc + 1) (ec + 1)
      else
        chapterLoopGo outline chapter_num wContent eContent maxIter threshold
          r (iteration + 1) (some chapter) (wc + 1) ec

/-- Model of `AgentNovelGenerator._create_chapter_with_collaboration` (instrumented).
`maxIter` is `settings.AGENT_MAX_ITERATIONS` (3 in `config.py`) and
`threshold` is `settings.AGENT_REVIEW_THRESHOLD` (0.7). -/
def create_chapter_with_collaboration (outline : NovelOutline)
    (chapter_num : Nat) (wContent eContent : Nat → String) (maxIter : Nat)
    (threshold : Rat) : LoopResult :=
  chapterLoopGo outline chapter_num wContent eContent maxIter threshold
    maxIter 0 none 0 0

/- ### Planner agent — `PlannerAgent` -/

/-- One entry of the parsed reply's `chapter_outlines` list: every field is
read with `dict.get` and a default, so all are optional. -/
structure ChapterData where
  title : Option String
  summary : Option String
  key_events : Option (List String)
  characters_involved : Option (List String)
  mood : Option String
  target_word_count : Option Int
deriving Repr, DecidableEq

/-- The dictionary produced by `json.loads` on the Planner's reply, with the
fields `_validate_and_enhance_outline` reads.  `characters`,
`world_setting` and `plot_structure` are modelled by their key lists. -/
structure OutlineData where
  title : Option String
  subtitle : Option String
  author_note : Option String
  one_line_pitch : Option String
  genre : Option String
  theme : Option String
  tone : Option String
  characters : Option (List String)
  world_setting : Option (List String)
  plot_structure : Option (List String)
  plot_points : Option (List String)
  chapter_outlines : Option (List ChapterData)
  themes_to_explore : Option (List String)
  key_symbols : Option (List String)
  target_readers : Option String
deriving Repr, DecidableEq

/-- The `enumerate` loop of `_validate_and_enhance_outline`: entry `i`
becomes a `ChapterOutline` with `chapter_num = i + 1` and per-field
defaults; an absent per-chapter target defaults to
`request.word_count // request.chapter_count` (Python floor division). -/
def enhanceChapters (request : NovelRequest) : Nat → List ChapterData →
    List ChapterOutline
  | _, [] => []
  | i, cd :: rest =>
    { chapter_num := i + 1,
      title := cd.title.getD ("第" ++ toString (i + 1) ++ "章"),
      summary := cd.summary.getD "",
      key_events := cd.key_events.getD [],
      characters_involved := cd.characters_involved.getD [],
      mood := cd.mood.getD "neutral",
      target_word_count :=
        cd.target_word_count.getD
          (request.word_count.fdiv request.chapter_count) } ::
      enhanceChapters request (i + 1) rest

/-- Model of `PlannerAgent._validate_and_enhance_outline`: requires the fields
`title`, `author_note`, `characters`, `chapter_outlines` (in that order,
raising `ValueError` on the first one missing), then assembles the
`NovelOutline` with per-field defaults.  Note: the length of
`chapter_outlines` is NOT compared with `request.chapter_count`. -/
def validate_and_enhance_outline (od : OutlineData) (request : NovelRequest) :
    Except String NovelOutline :=
  if od.title.isNone then .error "大纲缺少必要字段: title"
  else if od.author_note.isNone then .error "大纲缺少必要字段: author_note"
  else if od.characters.isNone then .error "大纲缺少必要字段: characters"
  else if od.chapter_outlines.isNone then .error "大纲缺少必要字段: chapter_outlines"
  else
    .ok
      { title := od.title.getD "",
        subtitle := od.subtitle,
        author_note := od.author_note.getD "",
        one_line_pitch := od.one_line_pitch.getD "",
        genre := od.genre.getD (request.genre.getD ""),
        theme := od.theme.getD request.theme,
        tone := od.tone.getD "",
        characters := od.characters.getD [],
        world_setting := od.world_setting.getD [],
        plot_structure := od.plot_structure.getD [],
        plot_points := od.plot_points.getD [],
        chapter_outlines := enhanceChapters request 0 (od.chapter_outlines.getD []),
        themes_to_explore := od.themes_to_explore.getD [],
        key_symbols := od.key_symbols.getD [],
        target_readers := od.target_readers.getD request.target_audience }

/-- Model of `PlannerAgent._evaluate_outline_quality`: the fraction of five
completeness checks satisfied (truthy title longer than 5, protagonist
among the characters, ≥3 chapter outlines, ≥3 plot-structure entries,
≥2 themes). -/
def evaluate_outline_quality (o : NovelOutline) : Rat :=
  let s1 : Rat := if 5 < o.title.length then 1 else 0
  let s2 : Rat :=
    if !o.characters.isEmpty && o.characters.contains "protagonist" then 1 else 0
  let s3 : Rat := if 3 ≤ o.chapter_outlines.length then 1 else 0
  let s4 : Rat :=
    if !o.plot_structure.isEmpty && 3 ≤ o.plot_structure.length then 1 else 0
  let s5 : Rat :=
    if !o.themes_to_explore.isEmpty && 2 ≤ o.themes_to_explore.length then 1 else 0
  (s1 + s2 + s3 + s4 + s5) / 5

/- ### Orchestrator — `AgentNovelGenerator.generate_novel` -/

/-- Iteration caps from `config.py`: `AGENT_MAX_ITERATIONS = 3`,
`AGENT_REVIEW_THRESHOLD = 0.7`. -/
structure AgentConfig where
  maxIterations : Nat
  reviewThreshold : Rat
deriving Repr, DecidableEq

/-- All LLM interaction of one generation run, supplied as oracles:
the Planner's parsed reply (or its propagated failure), the Writer and
Editor texts per (chapter, iteration), the final-review reply per chapter
(reply text and parse outcome; `.error` = the reviewer call itself raised),
and the Editor text used in the final polish per chapter. -/
structure GenOracle where
  plannerData : Except String OutlineData
  wContent : Nat → Nat → String
  eContent : Nat → Nat → String
  reviewLLM : Nat → Except String (String × Except Unit ReviewData)
  polishContent : Nat → String

/-- The parts of `NovelResult` the model tracks (wall-clock statistics and
the collaboration log are side channels no claim observes). -/
structure NovelResultM where
  title : String
  author_note : String
  outline : NovelOutline
  chapters : List Chapter
  total_words : Nat
  average_chapter_words : Nat
deriving Repr, DecidableEq

/-- The `for chapter_num in range(1, len(outline.chapter_outlines) + 1)`
loop of `generate_novel`: chapters accumulate in reverse in `acc`. -/
def writeChapters (cfg : AgentConfig) (outline : NovelOutline)
    (oracle : GenOracle) : Nat → Nat → List Chapter →
    Except String (List Chapter)
  | 0, _, acc => .ok acc.reverse
  | r + 1, chapter_num, acc =>
    let lr := create_chapter_with_collaboration outline chapter_num
      (oracle.wContent chapter_num) (oracle.eContent chapter_num)
      cfg.maxIterations cfg.reviewThreshold
    match lr.outcome with
    | .error e => .error e
    | .ok c => writeChapters cfg outline oracle r (chapter_num + 1) (c :: acc)

/-- Model of `AgentNovelGenerator._final_review_and_polish`: the Reviewer scores each
chapter; when the score is below 0.8 and the recommendation is "revise",
the Editor is invoked exactly once more and its output replaces the
chapter, otherwise the chapter is kept. -/
def final_review_and_polish (outline : NovelOutline) (oracle : GenOracle) :
    List Chapter → List Chapter → Except String (List Chapter)
  | [], polished => .ok polished.reverse
  | ch :: rest, polished =>
    match pyGet outline.chapter_outlines ((ch.chapter_num : Int) - 1) with
    | none => .error "IndexError: list index out of range"
    | some _ =>
      match review_chapter (oracle.reviewLLM ch.chapter_num) with
      | .error e => .error e
      | .ok resp =>
        match resp.quality_score with
        | none => .error "TypeError"
        | some q =>
          if q < 4 / 5 ∧ resp.next_action = some "revise" then
            match editor_process ch (oracle.polishContent ch.chapter_num) with
            | .error e => .error e
            | .ok (finalCh, _) =>
              final_review_and_polish outline oracle rest (finalCh :: polished)
          else
            final_review_and_polish outline oracle rest (ch :: polished)

/-- Sum of the chapters' word counts, `sum(ch.word_count for ch in ...)`. -/
def totalWords : List Chapter → Nat
  | [] => 0
  | c :: rest => c.word_count + totalWords rest

/-- Model of `AgentNovelGenerator.generate_novel` for one task: Planner (parse
failures and call failures propagate, quality below 0.6 only logs), the
strictly sequential per-chapter Writer/Editor loop, the final review and
polish pass, then aggregation (`sum // len` raises `ZeroDivisionError` on
an empty chapter list).  Any propagated error marks the task FAILED with no
partial result. -/
def generate_novel (cfg : AgentConfig) (request : NovelRequest)
    (oracle : GenOracle) : Except String NovelResultM :=
  match oracle.plannerData with
  | .error e => .error e
  | .ok od =>
    match validate_and_enhance_outline od request with
    | .error e => .error e
    | .ok outline =>
      match writeChapters cfg outline oracle outline.chapter_outlines.length 1 [] with
      | .error e => .error e
      | .ok chapters =>
        match final_review_and_polish outline oracle chapters [] with
        | .error e => .error e
        | .ok finals =>
          if finals.length = 0 then .error "ZeroDivisionError: division by zero"
          else
            .ok { title := outline.title, author_note := outline.author_note,
                  outline := outline, chapters := finals,
                  total_words := totalWords finals,
                  average_chapter_words := totalWords finals / finals.length }

/- ### Concrete run fixtures used by counterexamples and witnesses -/

/-- A valid request asking for 3 chapters of a 6000-word novel. -/
def cexRequest : NovelRequest :=
  { theme := "人工智能觉醒", genre := none, style := "知乎风格",
    word_count := 6000, chapter_count := 3, target_audience := "知乎用户" }

/-- A parsed Planner reply that carries all required fields but only TWO
chapter outlines, although the request asked for three. -/
def cexOutlineData : OutlineData :=
  { title := some "测试小说标题", subtitle := none,
    author_note := some "作者的话", one_line_pitch := none, genre := none,
    theme := none, tone := none, characters := some ["protagonist"],
    world_setting := none, plot_structure := none, plot_points := none,
    chapter_outlines := some
      [{ title := some "第一章", summary := none, key_events := none,
         characters_involved := none, mood := none, target_word_count := none },
       { title := some "第二章", summary := none, key_events := none,
         characters_involved := none, mood := none, target_word_count := none }],
    themes_to_explore := none, key_symbols := none, target_readers := none }

/-- A fully successful reviewer reply scoring 5/5 on one axis. -/
def cexReviewData : ReviewData :=
  { overall_score := none, scores := some [("completeness", 5)],
    suggestions := none }

/-- Oracles for a run that completes: every Writer call returns
"hello world", every final review parses and accepts. -/
def cexOracle : GenOracle :=
  { plannerData := .ok cexOutlineData,
    wContent := fun _ _ => "hello world",
    eContent := fun _ _ => "x",
    reviewLLM := fun _ => .ok ("", .ok cexReviewData),
    polishContent := fun _ => "x" }

/-- The outline `validate_and_enhance_outline` builds from
`cexOutlineData` and `cexRequest` (defaults filled in;
per-chapter target 6000 // 3 = 2000). -/
def cexOutline : NovelOutline :=
  { title := "测试小说标题", subtitle := none, author_note := "作者的话",
    one_line_pitch := "", genre := "", theme := "人工智能觉醒", tone := "",
    characters := ["protagonist"], world_setting := [], plot_structure := [],
    plot_points := [], chapter_outlines :=
      [{ chapter_num := 1, title := "第一章", summary := "", key_events := [],
         characters_involved := [], mood := "neutral", target_word_count := 2000 },
       { chapter_num := 2, title := "第二章", summary := "", key_events := [],
         characters_involved := [], mood := "neutral", target_word_count := 2000 }],
    themes_to_explore := [], key_symbols := [], target_readers := "知乎用户" }

/-- The completed result of running `generate_novel ⟨1, 7/10⟩ cexRequest
cexOracle`: two chapters, although the request asked for three. -/
def cexResult : NovelResultM :=
  { title := "测试小说标题", author_note := "作者的话", outline := cexOutline,
    chapters :=
      [{ chapter_num := 1, title := "第一章", content := "hello world",
         word_count := 2 },
       { chapter_num := 2, title := "第二章", content := "hello world",
         word_count := 2 }],
    total_words := 4, average_chapter_words := 2 }

/-- A one-chapter outline with a tiny (7-token) per-chapter target, for
exercising the Writer quality gate on small inputs. -/
def cexOutlineSmall : NovelOutline :=
  { title := "短篇测试", subtitle := none, author_note := "注",
    one_line_pitch := "", genre := "", theme := "测试", tone := "",
    characters := ["protagonist"], world_setting := [], plot_structure := [],
    plot_points := [],
    chapter_outlines :=
      [{ chapter_num := 1, title := "短章", summary := "", key_events := [],
         characters_involved := [], mood := "neutral", target_word_count := 7 }],
    themes_to_explore := [], key_symbols := [], target_readers := "读者" }

/-- Writer output hitting 3 of the 4 quality criteria against a 7-token
target (7 tokens, 6 dialogue markers, 5 paragraphs, short): score 3/4. -/
def cexGoodContent : String := "\"\"\"\"\"\" w w\nb\nc\nd\ne"

/-- The chapter the Writer builds from "hello world" for chapter 1 of
`cexOutline`. -/
def cexHelloChapter : Chapter :=
  { chapter_num := 1, title := "第一章", content := "hello world",
    word_count := 2 }

/-- The chapter the Writer builds from `cexGoodContent` for chapter 1 of
`cexOutlineSmall`. -/
def cexGoodChapter : Chapter :=
  { chapter_num := 1, title := "短章", content := cexGoodContent,
    word_count := 7 }

/- ### Helper lemmas

`Rat.add/sub/mul/inv` are `@[irreducible]` upstream, which blocks `decide`
on concrete quality-score computations; they are restored to the default
reducibility for the proofs below. -/

section RatReducible

attribute [local semireducible] Rat.mul Rat.inv Rat.add Rat.sub

/-- The fallback loop returns the first registered success, and otherwise an
error naming only the most recent failure. -/
theorem fallbackGo_spec (m : List (String × ProviderOutcome)) :
    ∀ (ps : List String) (acc : Option String),
      fallbackGo m acc ps =
        match specFirstSuccess m ps with
        | some r => .ok r
        | none => .error ("All providers failed. Last error: " ++
            (match specLastFailure m acc ps with
             | none => "None"
             | some e => e)) := by
  intro ps
  induction ps with
  | nil => intro acc; rfl
  | cons n rest ih =>
    intro acc
    cases h : dictGet m n with
    | none =>
      simp only [fallbackGo, specFirstSuccess, specLastFailure, h]
      exact ih acc
    | some out =>
      cases out with
      | ok r => simp only [fallbackGo, specFirstSuccess, specLastFailure, h]
      | error e =>
        simp only [fallbackGo, specFirstSuccess, specLastFailure, h]
        exact ih (some e)

/-- Zipping an all-registered request list against its launched-task
results pairs every name with its own provider's outcome. -/
theorem parallelCore_spec (m : List (String × ProviderOutcome)) :
    ∀ ps : List String, (∀ n ∈ ps, (dictGet m n).isSome) →
      (ps.zip (ps.filterMap (fun n => dictGet m n))).map
          (fun p => (p.fst, renderOutcome p.snd)) =
        ps.map (fun n => (n, renderOutcome ((dictGet m n).getD (.error "")))) := by
  intro ps
  induction ps with
  | nil => intro _; rfl
  | cons n rest ih =>
    intro hreg
    obtain ⟨b, hb⟩ := Option.isSome_iff_exists.mp (hreg n (by simp))
    simp only [List.filterMap_cons, hb, List.zip_cons_cons, List.map_cons,
      Option.getD_some]
    refine congrArg _ (ih ?_)
    intro x hx
    exact hreg x (by simp [hx])

/- ### Claim theorems -/

/-- C4 (code_bug evidence): the request validator ACCEPTS a request whose
per-chapter word budget is below the 200-word floor.  Because pydantic v1
validates fields in declaration order, `validate_word_count` runs before
`chapter_count` is in `values`, so it checks `word_count // 12` instead of
`word_count // chapter_count`; together with `word_count ≥ 5000` the floor
check can never fire.  Here 5000 words over 30 chapters (166 per chapter)
pass validation. -/
theorem validate_accepts_request_below_floor :
    validateNovelRequest
        { theme := "人工智能觉醒的故事", word_count := 5000, chapter_count := 30 } =
      .ok { theme := "人工智能觉醒的故事", genre := none, style := "知乎风格",
            word_count := 5000, chapter_count := 30, target_audience := "知乎用户" } ∧
    (5000 : Int).fdiv 30 < 200 := by
  exact ⟨by decide, by decide⟩

/-- C6: a Reviewer reply that fails to parse yields the fixed fallback
response — quality 0.6, next_action "revise" — as a normal return value
(`.ok`), never a propagated exception. -/
theorem reviewer_parse_failure_returns_fallback (reply : String) :
    review_chapter (.ok (reply, .error ())) =
      .ok { agent_role := "reviewer", content := .text reply,
            quality_score := some (3 / 5),
            suggestions := ["请重新检查内容格式"],
            next_action := some "revise" } := rfl

/-- C2 (counterexample): when providers A and B both fail, the raised error
names only B's failure; A's failure message does not occur anywhere in the
raised message, so the error does not carry every individual failure. -/
theorem fallback_error_not_aggregate :
    generate_with_fallback [("A", .error "boomA"), ("B", .error "boomB")]
        ["A", "B"] =
      .error "All providers failed. Last error: boomB" ∧
    ¬ ("boomA".data <:+: "All providers failed. Last error: boomB".data) := by
  exact ⟨by decide, by decide⟩

/-- C2 (amended): `generate_with_fallback` tries the candidates in order,
skipping unregistered names; it returns the result of the first provider
whose call succeeds, and when every candidate fails it raises an error
carrying only the most recent failure. -/
theorem generate_with_fallback_first_success_or_last_error
    (m : List (String × ProviderOutcome)) (ps : List String) (hne : ps ≠ []) :
    generate_with_fallback m ps =
      match specFirstSuccess m ps with
      | some r => .ok r
      | none => .error ("All providers failed. Last error: " ++
          (match specLastFailure m none ps with
           | none => "None"
           | some e => e)) := by
  unfold generate_with_fallback
  rw [if_neg (by simp [List.isEmpty_iff, hne])]
  exact fallbackGo_spec m ps none

/-- Witness for the amended C2 theorem at a concrete manager: A fails, B
succeeds, the call returns B's text. -/
theorem generate_with_fallback_first_success_witness :
    generate_with_fallback [("A", .error "boomA"), ("B", .ok "textB")]
        ["A", "B"] =
      match specFirstSuccess [("A", .error "boomA"), ("B", .ok "textB")]
          ["A", "B"] with
      | some r => .ok r
      | none => .error ("All providers failed. Last error: " ++
          (match specLastFailure [("A", .error "boomA"), ("B", .ok "textB")]
              none ["A", "B"] with
           | none => "None"
           | some e => e)) :=
  generate_with_fallback_first_success_or_last_error
    [("A", .error "boomA"), ("B", .ok "textB")] ["A", "B"] (by decide)

/-- C7: in `generate_parallel`, one provider's failure never aborts the
others — with A registered and failing and B registered and succeeding, the
result map records A's error string and B's success value. -/
theorem generate_parallel_failure_isolated
    (m : List (String × ProviderOutcome)) (A B ea rb : String)
    (hA : dictGet m A = some (.error ea)) (hB : dictGet m B = some (.ok rb)) :
    generate_parallel m [A, B] = [(A, "Error: " ++ ea), (B, rb)] := by
  unfold generate_parallel
  simp only [List.isEmpty_cons, Bool.false_eq_true, if_false,
    List.filterMap_cons, hA, hB, List.filterMap_nil, List.zip_cons_cons,
    List.zip_nil_right, List.map_cons, List.map_nil, renderOutcome]

/-- Witness for C7 at a concrete manager. -/
theorem generate_parallel_failure_isolated_witness :
    generate_parallel [("A", .error "downA"), ("B", .ok "textB")] ["A", "B"] =
      [("A", "Error: " ++ "downA"), ("B", "textB")] :=
  generate_parallel_failure_isolated
    [("A", .error "downA"), ("B", .ok "textB")] "A" "B" "downA" "textB"
    (by decide) (by decide)

/-- C10: when every requested name is registered, `generate_parallel`
returns exactly the requested names as keys, in order, each mapped to the
outcome of that same provider's call (the positional zip attributes
correctly under this precondition). -/
theorem generate_parallel_positional_attribution
    (m : List (String × ProviderOutcome)) (ps : List String) (hne : ps ≠ [])
    (hreg : ∀ n ∈ ps, (dictGet m n).isSome) :
    generate_parallel m ps =
      ps.map (fun n => (n, renderOutcome ((dictGet m n).getD (.error "")))) := by
  unfold generate_parallel
  rw [if_neg (by simp [List.isEmpty_iff, hne])]
  exact parallelCore_spec m ps hreg

/-- Witness for C10 at a concrete manager and request list. -/
theorem generate_parallel_positional_attribution_witness :
    generate_parallel [("A", .error "downA"), ("B", .ok "textB")] ["B", "A"] =
      ["B", "A"].map (fun n =>
        (n, renderOutcome
          ((dictGet [("A", .error "downA"), ("B", .ok "textB")] n).getD
            (.error "")))) :=
  generate_parallel_positional_attribution
    [("A", .error "downA"), ("B", .ok "textB")] ["B", "A"] (by decide)
    (by decide)


/-- A sum of non-negative rationals is non-negative. -/
theorem ratSum_nonneg : ∀ l : List Rat, (∀ x ∈ l, 0 ≤ x) → 0 ≤ ratSum l := by
  intro l
  induction l with
  | nil => intro _; exact le_refl 0
  | cons x xs ih =>
    intro h
    have hx := h x (by simp)
    have hxs := ih (fun y hy => h y (by simp [hy]))
    simpa [ratSum] using add_nonneg hx hxs

/-- A sum of rationals each at most 5 is at most 5 times the length. -/
theorem ratSum_le_five_mul : ∀ l : List Rat, (∀ x ∈ l, x ≤ 5) →
    ratSum l ≤ (l.length : Rat) * 5 := by
  intro l
  induction l with
  | nil => intro _; simp [ratSum]
  | cons x xs ih =>
    intro h
    have hx := h x (by simp)
    have hxs := ih (fun y hy => h y (by simp [hy]))
    simp only [ratSum, List.length_cons, Nat.cast_succ]
    calc x + ratSum xs ≤ 5 + (xs.length : Rat) * 5 := add_le_add hx hxs
      _ = ((xs.length : Rat) + 1) * 5 := by ring

/-- Shape of a successful Writer call: the produced chapter keeps the loop's
chapter number and the LLM text, and its `word_count` is the
whitespace-token count of that text. -/
theorem writer_process_ok_shape (outline : NovelOutline) (n : Nat)
    (content : String) (c : Chapter) (q : Rat)
    (h : writer_process outline n content = .ok (c, q)) :
    c.chapter_num = n ∧ c.content = content ∧
    c.word_count = pyWordCount content := by
  unfold writer_process at h
  by_cases h1 : n > outline.chapter_outlines.length
  · rw [if_pos h1] at h; simp at h
  · rw [if_neg h1] at h
    cases h2 : pyGet outline.chapter_outlines ((n : Int) - 1) with
    | none => rw [h2] at h; simp at h
    | some co =>
      rw [h2] at h
      dsimp only at h
      cases h3 : evaluate_content_quality
          { chapter_num := n, title := co.title, content := content,
            word_count := pyWordCount content } co with
      | error e => rw [h3] at h; simp at h
      | ok q2 =>
        rw [h3] at h
        simp only [Except.ok.injEq, Prod.mk.injEq] at h
        obtain ⟨hc, _⟩ := h
        rw [← hc]
        exact ⟨rfl, rfl, rfl⟩

/-- The Editor call succeeds whenever the incoming chapter has a non-zero
word count, and it preserves the chapter number. -/
theorem editor_process_ok (chapter : Chapter) (ec : String)
    (h : chapter.word_count ≠ 0) :
    ∃ ed q, editor_process chapter ec = .ok (ed, q) ∧
      ed.chapter_num = chapter.chapter_num := by
  unfold editor_process evaluate_editing_quality
  dsimp only
  rw [if_neg h]
  exact ⟨_, _, rfl, rfl⟩

/-- The loop body issues at most `remaining` further Writer calls. -/
theorem chapterLoopGo_writer_bound (outline : NovelOutline) (n : Nat)
    (wC eC : Nat → String) (maxIter : Nat) (threshold : Rat) :
    ∀ r iteration cur wc ec,
      (chapterLoopGo outline n wC eC maxIter threshold
        r iteration cur wc ec).writerCalls ≤ wc + r := by
  intro r
  induction r with
  | zero =>
    intro iteration cur wc ec
    cases cur <;> simp [chapterLoopGo]
  | succ k ih =>
    intro iteration cur wc ec
    simp only [chapterLoopGo]
    cases writer_process outline n (wC iteration) with
    | error e => dsimp only; omega
    | ok cq =>
      obtain ⟨chapter, q⟩ := cq
      dsimp only
      by_cases hq : q ≥ threshold
      · rw [if_pos hq]; dsimp only; omega
      · rw [if_neg hq]
        by_cases hi : iteration < maxIter - 1
        · rw [if_pos hi]
          cases editor_process chapter (eC iteration) with
          | error e => dsimp only; omega
          | ok ed =>
            obtain ⟨edited, q2⟩ := ed
            dsimp only
            have := ih (iteration + 1) (some edited) (wc + 1) (ec + 1)
            omega
        · rw [if_neg hi]
          have := ih (iteration + 1) (some chapter) (wc + 1) ec
          omega

/-- When every Writer call succeeds and yields a non-empty token list, the
loop always ends in a chapter (never an exception), regardless of scores. -/
theorem chapterLoopGo_ok (outline : NovelOutline) (n : Nat)
    (wC eC : Nat → String) (maxIter : Nat) (threshold : Rat)
    (hw : ∀ i, ∃ cq, writer_process outline n (wC i) = .ok cq)
    (ht : ∀ i, pyWordCount (wC i) ≠ 0) :
    ∀ r iteration cur wc ec, (r = 0 → cur.isSome) →
      ∃ c, (chapterLoopGo outline n wC eC maxIter threshold
        r iteration cur wc ec).outcome = .ok c := by
  intro r
  induction r with
  | zero =>
    intro iteration cur wc ec h0
    obtain ⟨c, hc⟩ := Option.isSome_iff_exists.mp (h0 rfl)
    exact ⟨c, by simp [chapterLoopGo, hc]⟩
  | succ k ih =>
    intro iteration cur wc ec _
    obtain ⟨⟨chapter, q⟩, hwp⟩ := hw iteration
    simp only [chapterLoopGo, hwp]
    by_cases hq : q ≥ threshold
    · rw [if_pos hq]; exact ⟨chapter, rfl⟩
    · rw [if_neg hq]
      by_cases hi : iteration < maxIter - 1
      · rw [if_pos hi]
        have hwc : chapter.word_count ≠ 0 := by
          obtain ⟨_, _, h3⟩ := writer_process_ok_shape outline n (wC iteration)
            chapter q hwp
          rw [h3]; exact ht iteration
        obtain ⟨ed, q2, hed, _⟩ := editor_process_ok chapter (eC iteration) hwc
        rw [hed]
        exact ih (iteration + 1) (some ed) (wc + 1) (ec + 1) (fun _ => rfl)
      · rw [if_neg hi]
        exact ih (iteration + 1) (some chapter) (wc + 1) ec (fun _ => rfl)

/-- C5: the per-chapter Writer/Editor loop performs at most `maxIterations`
Writer invocations, and (provided at least one iteration is allowed and the
individual agent calls succeed) it always terminates in an accepted chapter
regardless of the final quality score — best-effort acceptance, not a hard
failure. -/
theorem chapter_loop_bounded_and_total (outline : NovelOutline) (n : Nat)
    (wC eC : Nat → String) (maxIter : Nat) (threshold : Rat) :
    (create_chapter_with_collaboration outline n wC eC maxIter
        threshold).writerCalls ≤ maxIter ∧
    (1 ≤ maxIter →
      (∀ i, ∃ cq, writer_process outline n (wC i) = .ok cq) →
      (∀ i, pyWordCount (wC i) ≠ 0) →
      ∃ c, (create_chapter_with_collaboration outline n wC eC maxIter
        threshold).outcome = .ok c) := by
  constructor
  · have := chapterLoopGo_writer_bound outline n wC eC maxIter threshold
      maxIter 0 none 0 0
    simpa [create_chapter_with_collaboration] using this
  · intro hm hw ht
    exact chapterLoopGo_ok outline n wC eC maxIter threshold hw ht
      maxIter 0 none 0 0 (fun h0 => absurd h0 (by omega))

set_option maxRecDepth 4000 in
/-- Witness for C5: with one allowed iteration and a succeeding Writer, the
loop accepts a chapter even though its quality score (0) is far below the
threshold (7/10). -/
theorem chapter_loop_bounded_and_total_witness :
    ∃ c, (create_chapter_with_collaboration cexOutline 1
        (fun _ => "hello world") (fun _ => "x") 1 (7 / 10)).outcome = .ok c :=
  (chapter_loop_bounded_and_total cexOutline 1 (fun _ => "hello world")
      (fun _ => "x") 1 (7 / 10)).2 (by decide)
    (fun _ => ⟨(cexHelloChapter, 0), by decide⟩)
    (fun _ => by decide)

/-- C8: if the very first Writer iteration scores at least the review
threshold, the loop breaks immediately: exactly one Writer call, zero
Editor calls, and the Writer's chapter is returned unchanged. -/
theorem first_iteration_accept_skips_editor (outline : NovelOutline) (n : Nat)
    (wC eC : Nat → String) (maxIter : Nat) (threshold : Rat) (c : Chapter)
    (q : Rat) (hm : 1 ≤ maxIter)
    (hw : writer_process outline n (wC 0) = .ok (c, q))
    (hq : q ≥ threshold) :
    create_chapter_with_collaboration outline n wC eC maxIter threshold =
      ⟨.ok c, 1, 0⟩ := by
  obtain ⟨k, rfl⟩ : ∃ k, maxIter = k + 1 := ⟨maxIter - 1, by omega⟩
  unfold create_chapter_with_collaboration
  simp only [chapterLoopGo, hw]
  rw [if_pos hq]

set_option maxRecDepth 4000 in
/-- Witness for C8: a first-iteration score of 3/4 against the 7/10
threshold ends the loop with one Writer call and no Editor call. -/
theorem first_iteration_accept_skips_editor_witness :
    create_chapter_with_collaboration cexOutlineSmall 1
        (fun _ => cexGoodContent) (fun _ => "x") 3 (7 / 10) =
      ⟨.ok cexGoodChapter, 1, 0⟩ :=
  first_iteration_accept_skips_editor cexOutlineSmall 1
    (fun _ => cexGoodContent) (fun _ => "x") 3 (7 / 10) cexGoodChapter
    (3 / 4) (by decide) (by decide) (by decide)

/-- C3 (counterexample): the Reviewer's overall score is NOT clamped to
[0,1] — a parsed reply whose single axis scores 10 yields an overall
quality score of 2. -/
theorem reviewer_score_not_clamped :
    (review_chapter_core ""
        (.ok { overall_score := none,
               scores := some [("completeness", 10)],
               suggestions := none })).quality_score = some 2 ∧
    ¬ ((2 : Rat) ≤ 1) := by
  exact ⟨by decide, by decide⟩

/-- C3 (amended): for a parsed reply with a non-empty per-axis score dict,
the overall score equals the axis sum divided by (5 × number of axes) —
the arithmetic mean of the axes normalised by the per-axis maximum 5, with
no clamping; it lies in [0,1] whenever every axis is within [0,5]; and the
recommendation is "accept" iff the overall score is ≥ 0.7, else "revise". -/
theorem reviewer_mean_of_axes_and_threshold (reply : String) (rd : ReviewData)
    (l : List (String × Rat)) (hs : rd.scores = some l) (hne : l ≠ []) :
    calculate_quality_score rd =
      ratSum (l.map Prod.snd) / ((l.length : Rat) * 5) ∧
    ((∀ p ∈ l, 0 ≤ p.2 ∧ p.2 ≤ 5) →
      0 ≤ calculate_quality_score rd ∧ calculate_quality_score rd ≤ 1) ∧
    (review_chapter_core reply (.ok rd)).next_action =
      some (if calculate_quality_score rd ≥ 7 / 10 then "accept"
        else "revise") := by
  have hlen : 0 < l.length := List.length_pos.mpr hne
  have hpos : (0 : Rat) < (l.length : Rat) * 5 :=
    mul_pos (by exact_mod_cast hlen) (by norm_num)
  have hq : calculate_quality_score rd =
      ratSum (l.map Prod.snd) / ((l.length : Rat) * 5) := by
    simp only [calculate_quality_score, hs]
    rw [if_pos hpos]
  refine ⟨hq, ?_, rfl⟩
  intro hb
  have h0 : 0 ≤ ratSum (l.map Prod.snd) := by
    refine ratSum_nonneg _ ?_
    intro x hx
    obtain ⟨p, hp, rfl⟩ := List.mem_map.mp hx
    exact (hb p hp).1
  have h5 : ratSum (l.map Prod.snd) ≤ ((l.map Prod.snd).length : Rat) * 5 := by
    refine ratSum_le_five_mul _ ?_
    intro x hx
    obtain ⟨p, hp, rfl⟩ := List.mem_map.mp hx
    exact (hb p hp).2
  rw [hq]
  constructor
  · exact div_nonneg h0 (le_of_lt hpos)
  · rw [div_le_one hpos]
    simpa using h5

/-- Witness for the amended C3 theorem at a one-axis parsed reply scoring
5: overall 5/5 = 1, within bounds, recommendation "accept". -/
theorem reviewer_mean_of_axes_and_threshold_witness :
    calculate_quality_score cexReviewData =
      ratSum ([("completeness", (5 : Rat))].map Prod.snd) /
        ((([("completeness", (5 : Rat))].length : Nat) : Rat) * 5) ∧
    ((∀ p ∈ [("completeness", (5 : Rat))], 0 ≤ p.2 ∧ p.2 ≤ 5) →
      0 ≤ calculate_quality_score cexReviewData ∧
      calculate_quality_score cexReviewData ≤ 1) ∧
    (review_chapter_core "" (.ok cexReviewData)).next_action =
      some (if calculate_quality_score cexReviewData ≥ 7 / 10 then "accept"
        else "revise") :=
  reviewer_mean_of_axes_and_threshold "" cexReviewData
    [("completeness", 5)] rfl (by decide)

/-- C9: a successful Writer call stores `word_count = len(content.split())`
— the number of whitespace-separated tokens, not characters — and the
quality score's ±20% word-count criterion compares exactly that token
count against the chapter outline's target (the first summand is 1 iff
5·|tokens − target| ≤ target, i.e. the deviation is within 20%). -/
theorem writer_word_count_whitespace_tokens (outline : NovelOutline) (n : Nat)
    (content : String) (co : ChapterOutline) (h1 : 1 ≤ n)
    (h2 : n ≤ outline.chapter_outlines.length)
    (hco : outline.chapter_outlines.get? (n - 1) = some co)
    (ht : 0 < co.target_word_count) :
    writer_process outline n content =
      .ok ({ chapter_num := n, title := co.title, content := content,
             word_count := (pySplit content.data).length },
        ((if 5 * ((|((pySplit content.data).length : Int) -
                co.target_word_count| : Int) : Rat) ≤
              ((co.target_word_count : Int) : Rat) then (1 : Rat) else 0) +
          (if 6 ≤ dialogueMarkerCount content then (1 : Rat) else 0) +
          (if 5 ≤ (pyParagraphs content.data).length then (1 : Rat) else 0) +
          (if 500 < content.length then (1 : Rat) else 0)) / 4) := by
  have hng : ¬ (n > outline.chapter_outlines.length) := by omega
  have hpg : pyGet outline.chapter_outlines ((n : Int) - 1) = some co := by
    unfold pyGet
    rw [if_pos (by omega : (0 : Int) ≤ (n : Int) - 1)]
    have he : ((n : Int) - 1).toNat = n - 1 := by omega
    rw [he, hco]
  unfold writer_process
  rw [if_neg hng, hpg]
  dsimp only
  unfold evaluate_content_quality
  rw [if_neg (by omega : ¬ co.target_word_count = 0)]
  dsimp only [pyWordCount]
  have hT : (0 : Rat) < ((co.target_word_count : Int) : Rat) := by
    exact_mod_cast ht
  have hiff :
      ((|((pySplit content.data).length : Int) -
          co.target_word_count| : Int) : Rat) /
        ((co.target_word_count : Int) : Rat) ≤ 1 / 5 ↔
      5 * ((|((pySplit content.data).length : Int) -
          co.target_word_count| : Int) : Rat) ≤
        ((co.target_word_count : Int) : Rat) := by
    rw [div_le_div_iff₀ hT (by norm_num : (0 : Rat) < 5)]
    constructor
    · intro h; linarith
    · intro h; linarith
  rw [if_congr hiff rfl rfl]

/-- Witness for C9: the Writer on a 3-token text against a 7-word target
stores word_count 3 and scores it with the stated formula. -/
theorem writer_word_count_whitespace_tokens_witness :
    writer_process cexOutlineSmall 1 "a b c" =
      .ok ({ chapter_num := 1, title := "短章", content := "a b c",
             word_count := (pySplit "a b c".data).length },
        ((if 5 * ((|((pySplit "a b c".data).length : Int) - 7| : Int) : Rat) ≤
              (((7 : Int) : Int) : Rat) then (1 : Rat) else 0) +
          (if 6 ≤ dialogueMarkerCount "a b c" then (1 : Rat) else 0) +
          (if 5 ≤ (pyParagraphs "a b c".data).length then (1 : Rat) else 0) +
          (if 500 < "a b c".length then (1 : Rat) else 0)) / 4) :=
  writer_word_count_whitespace_tokens cexOutlineSmall 1 "a b c"
    { chapter_num := 1, title := "短章", summary := "", key_events := [],
      characters_involved := [], mood := "neutral", target_word_count := 7 }
    (by decide) (by decide) (by decide) (by decide)

/-- A successful Editor call preserves the chapter number. -/
theorem editor_process_ok_shape (chapter : Chapter) (ec : String)
    (ed : Chapter) (q : Rat) (h : editor_process chapter ec = .ok (ed, q)) :
    ed.chapter_num = chapter.chapter_num := by
  unfold editor_process at h
  dsimp only at h
  cases h3 : evaluate_editing_quality
      { chapter_num := chapter.chapter_num, title := chapter.title,
        content := ec, word_count := pyWordCount ec } chapter with
  | error e => rw [h3] at h; simp at h
  | ok q2 =>
    rw [h3] at h
    simp only [Except.ok.injEq, Prod.mk.injEq] at h
    obtain ⟨hc, _⟩ := h
    rw [← hc]

/-- Every chapter the per-chapter loop returns carries the loop's chapter
number (the Writer stamps it, the Editor preserves it). -/
theorem chapterLoopGo_chapter_num (outline : NovelOutline) (n : Nat)
    (wC eC : Nat → String) (maxIter : Nat) (threshold : Rat) :
    ∀ r iteration cur wc ec c,
      (∀ x, cur = some x → x.chapter_num = n) →
      (chapterLoopGo outline n wC eC maxIter threshold r iteration cur wc
        ec).outcome = .ok c →
      c.chapter_num = n := by
  intro r
  induction r with
  | zero =>
    intro iteration cur wc ec c hcur hout
    cases cur with
    | none => simp [chapterLoopGo] at hout
    | some x =>
      simp only [chapterLoopGo, LoopResult.mk.injEq] at hout
      simp only [Except.ok.injEq] at hout
      rw [← hout]
      exact hcur x rfl
  | succ k ih =>
    intro iteration cur wc ec c hcur hout
    cases hwp : writer_process outline n (wC iteration) with
    | error e => simp [chapterLoopGo, hwp] at hout
    | ok cq =>
      obtain ⟨chapter, q⟩ := cq
      have hch : chapter.chapter_num = n :=
        (writer_process_ok_shape outline n (wC iteration) chapter q hwp).1
      simp only [chapterLoopGo, hwp] at hout
      by_cases hq : q ≥ threshold
      · rw [if_pos hq] at hout
        simp only [Except.ok.injEq] at hout
        rw [← hout]
        exact hch
      · rw [if_neg hq] at hout
        by_cases hi : iteration < maxIter - 1
        · rw [if_pos hi] at hout
          cases hed : editor_process chapter (eC iteration) with
          | error e => rw [hed] at hout; simp at hout
          | ok edq =>
            obtain ⟨edited, q2⟩ := edq
            rw [hed] at hout
            refine ih (iteration + 1) (some edited) (wc + 1) (ec + 1) c
              ?_ hout
            intro x hx
            injection hx with hx
            rw [← hx]
            rw [editor_process_ok_shape chapter (eC iteration) edited q2 hed]
            exact hch
        · rw [if_neg hi] at hout
          refine ih (iteration + 1) (some chapter) (wc + 1) ec c ?_ hout
          intro x hx
          injection hx with hx
          rw [← hx]
          exact hch

/-- Every chapter accepted by `_create_chapter_with_collaboration` carries
the chapter number it was invoked for. -/
theorem create_chapter_num (outline : NovelOutline) (n : Nat)
    (wC eC : Nat → String) (maxIter : Nat) (threshold : Rat) (c : Chapter)
    (h : (create_chapter_with_collaboration outline n wC eC maxIter
      threshold).outcome = .ok c) :
    c.chapter_num = n :=
  chapterLoopGo_chapter_num outline n wC eC maxIter threshold maxIter 0 none
    0 0 c (fun _ hx => by simp at hx) h

/-- The sequential chapter loop of `generate_novel` appends, for `r`
chapters starting at `start`, chapters numbered `start, start+1, …`. -/
theorem writeChapters_map_num (cfg : AgentConfig) (outline : NovelOutline)
    (oracle : GenOracle) :
    ∀ r start acc out,
      writeChapters cfg outline oracle r start acc = .ok out →
      out.map Chapter.chapter_num =
        acc.reverse.map Chapter.chapter_num ++ List.range' start r := by
  intro r
  induction r with
  | zero =>
    intro start acc out h
    simp only [writeChapters, Except.ok.injEq] at h
    rw [← h]
    simp [List.range']
  | succ k ih =>
    intro start acc out h
    simp only [writeChapters] at h
    cases hlr : (create_chapter_with_collaboration outline start
        (oracle.wContent start) (oracle.eContent start) cfg.maxIterations
        cfg.reviewThreshold).outcome with
    | error e => rw [hlr] at h; simp at h
    | ok c =>
      rw [hlr] at h
      have hnum : c.chapter_num = start :=
        create_chapter_num outline start (oracle.wContent start)
          (oracle.eContent start) cfg.maxIterations cfg.reviewThreshold c hlr
      have := ih (start + 1) (c :: acc) out h
      rw [this, List.range'_succ]
      simp [hnum]

/-- The final review-and-polish pass preserves, element by element, the
chapter numbers of its input list. -/
theorem final_polish_map_num (outline : NovelOutline) (oracle : GenOracle) :
    ∀ chs acc out,
      final_review_and_polish outline oracle chs acc = .ok out →
      out.map Chapter.chapter_num =
        acc.reverse.map Chapter.chapter_num ++
          chs.map Chapter.chapter_num := by
  intro chs
  induction chs with
  | nil =>
    intro acc out h
    simp only [final_review_and_polish, Except.ok.injEq] at h
    rw [← h]
    simp
  | cons ch rest ih =>
    intro acc out h
    simp only [final_review_and_polish] at h
    cases hpg : pyGet outline.chapter_outlines ((ch.chapter_num : Int) - 1) with
    | none => rw [hpg] at h; simp at h
    | some co =>
      simp only [hpg] at h
      cases hrv : review_chapter (oracle.reviewLLM ch.chapter_num) with
      | error e => simp only [hrv] at h; simp at h
      | ok resp =>
        simp only [hrv] at h
        cases hqs : resp.quality_score with
        | none => simp only [hqs] at h; simp at h
        | some q =>
          simp only [hqs] at h
          by_cases hcond : q < 4 / 5 ∧ resp.next_action = some "revise"
          · rw [if_pos hcond] at h
            cases hed : editor_process ch
                (oracle.polishContent ch.chapter_num) with
            | error e => simp only [hed] at h; simp at h
            | ok edq =>
              obtain ⟨finalCh, q2⟩ := edq
              simp only [hed] at h
              have := ih (finalCh :: acc) out h
              rw [this]
              simp [editor_process_ok_shape ch
                (oracle.polishContent ch.chapter_num) finalCh q2 hed]
          · rw [if_neg hcond] at h
            have := ih (ch :: acc) out h
            rw [this]
            simp

/-- C1 (amended): a completed generation run produces exactly as many
chapters as the planner's outline has chapter outlines — a count the code
never validates against `request.chapter_count` — and those chapters are
contiguously indexed 1..N in order. -/
theorem generate_novel_contiguous_chapters (cfg : AgentConfig)
    (request : NovelRequest) (oracle : GenOracle) (res : NovelResultM)
    (h : generate_novel cfg request oracle = .ok res) :
    res.chapters.map Chapter.chapter_num =
      List.range' 1 res.outline.chapter_outlines.length ∧
    res.chapters.length = res.outline.chapter_outlines.length := by
  unfold generate_novel at h
  cases hp : oracle.plannerData with
  | error e => simp only [hp] at h; simp at h
  | ok od =>
    simp only [hp] at h
    cases hv : validate_and_enhance_outline od request with
    | error e => simp only [hv] at h; simp at h
    | ok outline =>
      simp only [hv] at h
      cases hw : writeChapters cfg outline oracle
          outline.chapter_outlines.length 1 [] with
      | error e => simp only [hw] at h; simp at h
      | ok chapters =>
        simp only [hw] at h
        cases hf : final_review_and_polish outline oracle chapters [] with
        | error e => simp only [hf] at h; simp at h
        | ok finals =>
          simp only [hf] at h
          by_cases h0 : finals.length = 0
          · rw [if_pos h0] at h; simp at h
          · rw [if_neg h0] at h
            simp only [Except.ok.injEq] at h
            subst h
            have hmap1 : chapters.map Chapter.chapter_num =
                List.range' 1 outline.chapter_outlines.length := by
              have := writeChapters_map_num cfg outline oracle
                outline.chapter_outlines.length 1 [] chapters hw
              simpa using this
            have hmap2 : finals.map Chapter.chapter_num =
                List.range' 1 outline.chapter_outlines.length := by
              have := final_polish_map_num outline oracle chapters [] finals hf
              simpa [hmap1] using this
            constructor
            · exact hmap2
            · have : (finals.map Chapter.chapter_num).length =
                  (List.range' 1 outline.chapter_outlines.length).length := by
                rw [hmap2]
              simpa using this

set_option maxRecDepth 4000 in
/-- C1 (counterexample): a run whose planner reply contains only two
chapter outlines COMPLETES with two chapters (numbered 1, 2) although the
validated request asked for `chapter_count = 3` — the chapter count is
never enforced. -/
theorem generate_novel_chapter_count_counterexample :
    (generate_novel ⟨1, 7 / 10⟩ cexRequest cexOracle).map
        (fun r => r.chapters.map Chapter.chapter_num) = .ok [1, 2] ∧
    cexRequest.chapter_count = 3 ∧ (2 : Int) ≠ 3 := by
  exact ⟨by decide, by decide, by decide⟩

set_option maxRecDepth 4000 in
/-- Witness for the amended C1 theorem: the two-outline run completes with
chapters numbered `range' 1 2 = [1, 2]`. -/
theorem generate_novel_contiguous_chapters_witness :
    cexResult.chapters.map Chapter.chapter_num =
      List.range' 1 cexResult.outline.chapter_outlines.length ∧
    cexResult.chapters.length = cexResult.outline.chapter_outlines.length :=
  generate_novel_contiguous_chapters ⟨1, 7 / 10⟩ cexRequest cexOracle
    cexResult (by decide)

end RatReducible
